/-
Verification of the vandrite plugin-api component lifecycle.

The source under scrutiny is the `Component` base class (load/unload/register/
registerInterval/addChild/removeChild), the `Plugin` subclass (command, event,
view, css and settings-tab registration plus the `onunload` override and the
`loadData`/`saveData` persistence wrappers).

Modelling choices, stated once:
  * A `Component` is a finite tree value.  Object identity of the TypeScript
    heap is modelled by the `id` field: distinct objects carry distinct ids,
    and `indexOf` (identity comparison) becomes comparison of ids.
  * Observable side effects (a child's unload cascade, `window.clearInterval`,
    invocation of a disposable callback, the subclass hooks) are recorded in an
    event trace; disposable callbacks are opaque effect labels.
  * The exception behaviour of `unload` (a disposable that throws) is modelled
    separately on `EComponent`, whose disposables carry a `throws` flag and
    whose `unloadE` propagates the first error exactly where JavaScript
    `forEach` would.
  * The Tauri filesystem collaborators of `loadData`/`saveData` are an abstract
    `Fs` record of fallible operations; `JSON.parse` is a fallible field of the
    same record.
-/
import Mathlib

namespace Vandrite

/-- Observable effects of the component lifecycle, in the order they occur. -/
inductive Event where
  | onload (id : Nat)        -- the subclass initialization hook ran on node `id`
  | clearInterval (h : Nat)  -- `window.clearInterval(h)`
  | dispose (d : Nat)        -- the disposable callback labelled `d` was invoked
  | onunload (id : Nat)      -- the subclass teardown hook ran on node `id`
  deriving DecidableEq, Repr

/-- The `Component` class: `_loaded`, `_children`, `_intervals`, `_disposables`.
`id` models object identity (see header). -/
inductive Component where
  | mk (id : Nat) (loaded : Bool) (children : List Component)
       (intervals : List Nat) (disposables : List Nat)

namespace Component

def id : Component → Nat
  | .mk i _ _ _ _ => i

def loaded : Component → Bool
  | .mk _ l _ _ _ => l

def children : Component → List Component
  | .mk _ _ cs _ _ => cs

def intervals : Component → List Nat
  | .mk _ _ _ ivs _ => ivs

def disposables : Component → List Nat
  | .mk _ _ _ _ ds => ds

/-- `load()`: `if (this._loaded) return; this._loaded = true; this.onload();`.
The hook invocation is recorded as an `Event.onload` so it can be counted. -/
def load : Component → Component × List Event
  | .mk i l cs ivs ds =>
      if l then (.mk i l cs ivs ds, [])
      else (.mk i true cs ivs ds, [Event.onload i])

mutual

/-- `unload()`: guard on `_loaded`; then unload every child in order and clear
`_children`; clear every interval and clear `_intervals`; run every disposable
in order and clear `_disposables`; run `onunload()`; set `_loaded = false`. -/
def unload : Component → Component × List Event
  | .mk i l cs ivs ds =>
      if l then
        let r := unloadList cs
        (.mk i false [] [] [],
          r.2 ++ ivs.map Event.clearInterval ++ ds.map Event.dispose
              ++ [Event.onunload i])
      else (.mk i l cs ivs ds, [])

/-- `this._children.forEach((child) => child.unload())`. -/
def unloadList : List Component → List Component × List Event
  | [] => ([], [])
  | c :: cs =>
      let r := unload c
      let rs := unloadList cs
      (r.1 :: rs.1, r.2 ++ rs.2)

end

/-- `register(cb)`: `this._disposables.push(cb)` — unconditional append. -/
def register (c : Component) (d : Nat) : Component :=
  .mk c.id c.loaded c.children c.intervals (c.disposables ++ [d])

/-- `registerInterval(id)`: push the handle and return it unchanged. -/
def registerInterval (c : Component) (h : Nat) : Component × Nat :=
  (.mk c.id c.loaded c.children (c.intervals ++ [h]) c.disposables, h)

/-- `addChild(component)`: push and return the argument unchanged. -/
def addChild (c : Component) (x : Component) : Component × Component :=
  (.mk c.id c.loaded (c.children ++ [x]) c.intervals c.disposables, x)

/-- Remove the first entry whose identity (id field) matches `x`. -/
def removeFirst (x : Component) : List Component → List Component
  | [] => []
  | y :: ys => if y.id = x.id then ys else y :: removeFirst x ys

/-- `removeChild(component)`: `indexOf` (identity) then `splice(index, 1)` if
found; return the argument unchanged either way. -/
def removeChild (c : Component) (x : Component) : Component × Component :=
  (.mk c.id c.loaded (removeFirst x c.children) c.intervals c.disposables, x)

/-- Iterate `load()` `n` times, concatenating traces. -/
def loadIter : Nat → Component → Component × List Event
  | 0, c => (c, [])
  | n + 1, c =>
      let r := load c
      let rs := loadIter n r.1
      (rs.1, r.2 ++ rs.2)

/-- Iterate `unload()` `n` times, concatenating traces. -/
def unloadIter : Nat → Component → Component × List Event
  | 0, c => (c, [])
  | n + 1, c =>
      let r := unload c
      let rs := unloadIter n r.1
      (rs.1, r.2 ++ rs.2)

/-- The state after `this._loaded = true` and before `this.onload()` runs. -/
def setLoadedTrue (c : Component) : Component :=
  .mk c.id true c.children c.intervals c.disposables

/-- `load()` with the subclass initialization hook explicit: guard, set the
flag, hand the already-loaded state to the hook. -/
def loadWith (hook : Component → Component × List Event) (c : Component) :
    Component × List Event :=
  if c.loaded then (c, []) else hook (setLoadedTrue c)

end Component

/-! ### Exception-aware model of `unload`

The source runs the registered disposables with
`this._disposables.forEach((cb) => cb())` and catches nothing.  To examine what
a throwing callback does to the teardown, `EComponent` carries disposables with
a `throws` flag; `unloadE` propagates the first raised error exactly where a
JavaScript exception would abort the method: statements after the raising one
(including the `= []` clearing assignments, `this.onunload()` and
`this._loaded = false`) do not run. -/

/-- A disposable callback: its label and whether invoking it raises. -/
structure EDisp where
  id : Nat
  throws : Bool
  deriving DecidableEq, Repr

/-- `this._disposables.forEach((cb) => cb())`: invoke in order until one
raises; a raising callback yields no completed `dispose` event, only the
propagated error (carrying its label). -/
def runDisposables : List EDisp → List Event × Option Nat
  | [] => ([], none)
  | d :: ds =>
      if d.throws then ([], some d.id)
      else
        let r := runDisposables ds
        (Event.dispose d.id :: r.1, r.2)

/-- `Component` with throw-capable disposables (see section header). -/
inductive EComponent where
  | mk (id : Nat) (loaded : Bool) (children : List EComponent)
       (intervals : List Nat) (disposables : List EDisp)

namespace EComponent

def id : EComponent → Nat
  | .mk i _ _ _ _ => i

def loaded : EComponent → Bool
  | .mk _ l _ _ _ => l

def children : EComponent → List EComponent
  | .mk _ _ cs _ _ => cs

def intervals : EComponent → List Nat
  | .mk _ _ _ ivs _ => ivs

def disposables : EComponent → List EDisp
  | .mk _ _ _ _ ds => ds

mutual

/-- `unload()` under exception propagation.  A raised error aborts the method:
every assignment that in the source follows the raising statement is skipped,
so the partially-mutated state is returned together with the trace so far and
the error. -/
def unloadE : EComponent → EComponent × List Event × Option Nat
  | .mk i l cs ivs ds =>
      if l then
        match unloadListE cs with
        | (cs2, tr1, some e) =>
            -- a child's unload raised: `_children = []` and everything after
            -- it is skipped; the forEach left the earlier children unloaded
            (.mk i true cs2 ivs ds, tr1, some e)
        | (_, tr1, none) =>
            let tr2 := ivs.map Event.clearInterval
            match runDisposables ds with
            | (tr3, some e) =>
                -- a disposable raised: `_disposables = []`, `onunload()` and
                -- `_loaded = false` are all skipped
                (.mk i true [] [] ds, tr1 ++ tr2 ++ tr3, some e)
            | (tr3, none) =>
                (.mk i false [] [] [],
                  tr1 ++ tr2 ++ tr3 ++ [Event.onunload i], none)
      else (.mk i l cs ivs ds, [], none)

/-- `this._children.forEach((child) => child.unload())` under exceptions: an
error from one child aborts the iteration, leaving later children untouched. -/
def unloadListE : List EComponent → List EComponent × List Event × Option Nat
  | [] => ([], [], none)
  | c :: cs =>
      match unloadE c with
      | (c2, tr, some e) => (c2 :: cs, tr, some e)
      | (c2, tr, none) =>
          let r := unloadListE cs
          (c2 :: r.1, tr ++ r.2.1, r.2.2)

end

end EComponent

/-! ### The `Plugin` subclass

`Plugin extends Component` and adds `registeredCommands`, `registeredEvents`,
`settingsData`, the convenience registration methods and an `onunload`
override.  The model mirrors the inherited lifecycle fields flatly; plugin
children are opaque component identities (the recursive cascade is verified on
`Component` above).  Effects on the host application (`this.app.…`, DOM) are
recorded as `PEffect` events; the closures handed to `register` by the
convenience methods are the first-order `Cleanup` codes below, and
`runCleanup` is what invoking such a closure does. -/

/-- Host-visible side effects of `Plugin` methods. -/
inductive PEffect where
  | commandRegisterFx (id : String)     -- `app.commands.register(command)`
  | commandUnregisterFx (id : String)   -- `app.commands.unregister(id)`
  | eventOffFx (ref : Nat)              -- `app.events.off(ref)`
  | viewRegisterFx (t : String)         -- `app.workspace.registerView(type, …)`
  | viewUnregisterFx (t : String)       -- `app.workspace.unregisterView(type)`
  | extsRegisterFx (exts : List String) (t : String)
  | extsUnregisterFx (exts : List String)
  | styleAppendFx (id : String)         -- `document.head.appendChild(style)`
  | styleRemoveFx (id : String)         -- `style.remove()`
  | tabRegisterFx (id : String)         -- `app.plugins.registerSettingsTab(…)`
  | tabUnregisterFx (id : String)       -- `app.plugins.unregisterSettingsTab(…)`
  | childUnloadFx (id : Nat)            -- a child component's unload cascade
  | clearIntervalFx (h : Nat)           -- `window.clearInterval(h)`
  | customDisposeFx (d : Nat)           -- a user-registered disposable ran
  deriving DecidableEq, Repr

/-- The closures the `Plugin` convenience methods pass to `register`. -/
inductive Cleanup where
  | unregisterView (t : String)
  | unregisterExtensions (exts : List String)
  | removeStyle (id : String)
  | unregisterSettingsTab (id : String)
  | custom (d : Nat)
  deriving DecidableEq, Repr

/-- Invoking a registered cleanup closure performs its one host effect. -/
def runCleanup : Cleanup → PEffect
  | .unregisterView t => .viewUnregisterFx t
  | .unregisterExtensions es => .extsUnregisterFx es
  | .removeStyle i => .styleRemoveFx i
  | .unregisterSettingsTab i => .tabUnregisterFx i
  | .custom d => .customDisposeFx d

/-- The part of a `Command` object the `Plugin` reads (`command.id`); the host
registration consumes the whole object, opaque to the plugin. -/
structure Command where
  id : String
  name : String
  deriving DecidableEq, Repr

/-- Settings objects (`PluginSettings`, a JSON object): modelled as an
association list of string keys to serialized values; `{}` is `[]`. -/
def PluginSettings : Type := List (String × String)

instance : DecidableEq PluginSettings :=
  inferInstanceAs (DecidableEq (List (String × String)))

instance : Repr PluginSettings :=
  inferInstanceAs (Repr (List (String × String)))

/-- The empty settings object `{}`. -/
def emptySettings : PluginSettings := []

/-- The `Plugin` state: inherited `Component` fields plus the bookkeeping the
subclass adds. -/
structure Plugin where
  manifestId : String
  loaded : Bool
  children : List Nat
  intervals : List Nat
  disposables : List Cleanup
  registeredCommands : List String
  registeredEvents : List Nat
  settingsData : PluginSettings
  deriving DecidableEq, Repr

namespace Plugin

/-- A freshly constructed plugin for manifest id `m`. -/
def fresh (m : String) : Plugin :=
  ⟨m, false, [], [], [], [], [], emptySettings⟩

/-- Inherited `register(cb)`: unconditional push onto `_disposables`. -/
def register (p : Plugin) (c : Cleanup) : Plugin :=
  { p with disposables := p.disposables ++ [c] }

/-- `addCommand`: `app.commands.register(command)` immediately, then push
`command.id` onto `registeredCommands`.  (It does not call `register`.) -/
def addCommand (p : Plugin) (cmd : Command) : Plugin × List PEffect :=
  ({ p with registeredCommands := p.registeredCommands ++ [cmd.id] },
    [.commandRegisterFx cmd.id])

/-- `registerEvent(ref)`: push onto `registeredEvents`; no immediate host
effect and no call to `register`. -/
def registerEvent (p : Plugin) (ref : Nat) : Plugin × List PEffect :=
  ({ p with registeredEvents := p.registeredEvents ++ [ref] }, [])

/-- `registerView`: register the view type with the workspace, then
`register` a closure that unregisters that type. -/
def registerView (p : Plugin) (t : String) : Plugin × List PEffect :=
  (Plugin.register p (.unregisterView t), [.viewRegisterFx t])

/-- `registerExtensions`: register the mapping, then `register` a closure
that unregisters those extensions. -/
def registerExtensions (p : Plugin) (es : List String) (t : String) :
    Plugin × List PEffect :=
  (Plugin.register p (.unregisterExtensions es), [.extsRegisterFx es t])

/-- `loadCss`: append a style element with id `plugin-css-${manifest.id}`,
then `register` a closure that removes it. -/
def loadCss (p : Plugin) : Plugin × List PEffect :=
  (Plugin.register p (.removeStyle ("plugin-css-" ++ p.manifestId)),
    [.styleAppendFx ("plugin-css-" ++ p.manifestId)])

/-- `addSettingTab`: register the tab under the manifest id, then `register`
a closure that unregisters it. -/
def addSettingTab (p : Plugin) : Plugin × List PEffect :=
  (Plugin.register p (.unregisterSettingsTab p.manifestId),
    [.tabRegisterFx p.manifestId])

/-- The `onunload()` override: unregister every recorded command id, then
unsubscribe every recorded event ref.  Neither array is cleared. -/
def onunloadHook (p : Plugin) : List PEffect :=
  p.registeredCommands.map PEffect.commandUnregisterFx
    ++ p.registeredEvents.map PEffect.eventOffFx

/-- Inherited `unload()` with the overridden hook: guard, children, intervals,
disposables, then `onunload()`; only the three inherited collections are
cleared. -/
def unload (p : Plugin) : Plugin × List PEffect :=
  if p.loaded then
    ({ p with loaded := false, children := [], intervals := [], disposables := [] },
      p.children.map PEffect.childUnloadFx
        ++ p.intervals.map PEffect.clearIntervalFx
        ++ p.disposables.map runCleanup
        ++ p.onunloadHook)
  else (p, [])

/-- Inherited `load()`; the abstract subclass `onload` hook's own effects are
irrelevant to the claims about the bookkeeping arrays. -/
def load (p : Plugin) : Plugin :=
  if p.loaded then p else { p with loaded := true }

end Plugin

/-! ### Persistence wrappers `loadData` / `saveData`

The Tauri filesystem and JSON collaborators are an abstract record of fallible
operations; `loadData`'s and `saveData`'s `try { … } catch { log; degrade }`
shells are the explicit `match`es on the fallible body. -/

/-- The external collaborators of the persistence wrappers. -/
structure Fs where
  configDir : String
  fileExists : String → Bool
  readTextFile : String → Except String String
  parseJson : String → Except String PluginSettings
  stringifyJson : PluginSettings → String
  writeTextFile : String → String → Except String Unit

/-- `getSettingsPath()`: `{appConfigDir}/plugins/{pluginId}/settings.json`. -/
def settingsPath (fs : Fs) (pid : String) : String :=
  fs.configDir ++ "/plugins/" ++ pid ++ "/settings.json"

namespace Plugin

/-- The `try`-block of `loadData()`: if the settings file exists, read it,
parse it, store it in `settingsData` and return it; otherwise return `{}`. -/
def loadDataBody (p : Plugin) (fs : Fs) : Except String (Plugin × PluginSettings) := do
  if fs.fileExists (settingsPath fs p.manifestId) then
    let data ← fs.readTextFile (settingsPath fs p.manifestId)
    let s ← fs.parseJson data
    pure ({ p with settingsData := s }, s)
  else
    pure (p, emptySettings)

/-- `loadData()`: the body above with its `catch` — any failure is logged and
degraded to the empty settings object; nothing propagates. -/
def loadData (p : Plugin) (fs : Fs) : Plugin × PluginSettings :=
  match loadDataBody p fs with
  | .ok r => r
  | .error _ => (p, emptySettings)

/-- `saveData(data)`: ensure the directory (its own failures are caught
internally), assign `settingsData`, then write; a write failure is logged
(`true` in the result) and swallowed. -/
def saveData (p : Plugin) (fs : Fs) (d : PluginSettings) : Plugin × Bool :=
  let p2 := { p with settingsData := d }
  match fs.writeTextFile (settingsPath fs p.manifestId) (fs.stringifyJson d) with
  | .ok _ => (p2, false)
  | .error _ => (p2, true)

end Plugin

/-- Persistence stub: the settings file does not exist and every operation
fails — the never-saved-key scenario. -/
def fsMissing : Fs :=
  ⟨"cfg", fun _ => false, fun _ => .error "io", fun _ => .error "json",
    fun _ => "", fun _ _ => .error "io"⟩

/-- Persistence stub: the settings file exists but reading it fails. -/
def fsReadFails : Fs :=
  ⟨"cfg", fun _ => true, fun _ => .error "io", fun _ => .ok [],
    fun _ => "", fun _ _ => .ok ()⟩

/-- Persistence stub: the file exists and reads, but parsing fails. -/
def fsParseFails : Fs :=
  ⟨"cfg", fun _ => true, fun _ => .ok "garbage", fun _ => .error "json",
    fun _ => "", fun _ _ => .ok ()⟩

namespace Component

theorem unloadList_eq (cs : List Component) :
    unloadList cs = (cs.map fun c => (unload c).1,
      (cs.map fun c => (unload c).2).flatten) := by
  induction cs with
  | nil => rfl
  | cons c cs ih => simp [unloadList, ih]

theorem unload_of_loaded (c : Component) (h : c.loaded = true) :
    unload c = (.mk c.id false [] [] [],
      (c.children.map fun ch => (unload ch).2).flatten
        ++ c.intervals.map Event.clearInterval
        ++ c.disposables.map Event.dispose
        ++ [Event.onunload c.id]) := by
  cases c with
  | mk i l cs ivs ds =>
    cases l with
    | false => simp [loaded] at h
    | true => simp [unload, unloadList_eq, id, loaded, children, intervals, disposables]

theorem unload_of_not_loaded (c : Component) (h : c.loaded = false) :
    unload c = (c, []) := by
  cases c with
  | mk i l cs ivs ds =>
    cases l with
    | false => simp [unload]
    | true => simp [loaded] at h

theorem unload_fst_loaded (c : Component) : (unload c).1.loaded = false := by
  cases c with
  | mk i l cs ivs ds => cases l <;> simp [unload, loaded]

theorem unloadIter_of_not_loaded (c : Component) (h : c.loaded = false) :
    ∀ n, unloadIter n c = (c, []) := by
  intro n
  induction n with
  | zero => rfl
  | succ n ih => simp [unloadIter, unload_of_not_loaded c h, ih]

theorem load_of_loaded (c : Component) (h : c.loaded = true) :
    load c = (c, []) := by
  cases c with
  | mk i l cs ivs ds =>
    cases l with
    | false => simp [loaded] at h
    | true => simp [load]

theorem load_fst_loaded (c : Component) : (load c).1.loaded = true := by
  cases c with
  | mk i l cs ivs ds => cases l <;> simp [load, loaded]

theorem load_fst_disposables (c : Component) :
    (load c).1.disposables = c.disposables := by
  cases c with
  | mk i l cs ivs ds => cases l <;> rfl

theorem loadIter_of_loaded (c : Component) (h : c.loaded = true) :
    ∀ n, loadIter n c = (c, []) := by
  intro n
  induction n with
  | zero => rfl
  | succ n ih => simp [loadIter, load_of_loaded c h, ih]

theorem loadIter_succ_eq_load (c : Component) (n : Nat) :
    loadIter (n + 1) c = load c := by
  simp [loadIter, loadIter_of_loaded (load c).1 (load_fst_loaded c) n]

theorem removeFirst_append_self (x : Component) (l : List Component)
    (h : x.id ∉ l.map Component.id) : removeFirst x (l ++ [x]) = l := by
  induction l with
  | nil => simp [removeFirst]
  | cons y ys ih =>
      simp only [List.map_cons, List.mem_cons] at h
      push_neg at h
      have hne : ¬ (y.id = x.id) := fun hc => h.1 hc.symm
      simp [removeFirst, hne, ih h.2]

theorem removeFirst_of_not_mem (x : Component) (l : List Component)
    (h : x.id ∉ l.map Component.id) : removeFirst x l = l := by
  induction l with
  | nil => rfl
  | cons y ys ih =>
      simp only [List.map_cons, List.mem_cons] at h
      push_neg at h
      have hne : ¬ (y.id = x.id) := fun hc => h.1 hc.symm
      simp [removeFirst, hne, ih h.2]

theorem load_of_not_loaded (c : Component) (h : c.loaded = false) :
    load c = (setLoadedTrue c, [Event.onload c.id]) := by
  cases c with
  | mk i l cs ivs ds =>
    cases l with
    | false => simp [load, setLoadedTrue, id, children, intervals, disposables]
    | true => simp [loaded] at h

theorem register_loaded (c : Component) (d : Nat) :
    (register c d).loaded = c.loaded := by
  cases c with
  | mk i l cs ivs ds => rfl

theorem register_disposables (c : Component) (d : Nat) :
    (register c d).disposables = c.disposables ++ [d] := by
  cases c with
  | mk i l cs ivs ds => rfl

theorem count_map_dispose (l : List Nat) (d : Nat) :
    (l.map Event.dispose).count (Event.dispose d) = l.count d := by
  induction l with
  | nil => rfl
  | cons x xs ih =>
      by_cases hx : x = d <;> simp [List.count_cons, ih, hx]

theorem count_dispose_unload_ge (c : Component) (h : c.loaded = true) (d : Nat) :
    c.disposables.count d ≤ ((unload c).2).count (Event.dispose d) := by
  rw [unload_of_loaded c h]
  simp only [List.count_append, ← count_map_dispose c.disposables d]
  omega

end Component

theorem runDisposables_eq_of_throw (pre post : List EDisp) (e : Nat)
    (h : ∀ d ∈ pre, d.throws = false) :
    runDisposables (pre ++ ⟨e, true⟩ :: post) =
      (pre.map fun d => Event.dispose d.id, some e) := by
  induction pre with
  | nil => simp [runDisposables]
  | cons d ds ih =>
      have hd : d.throws = false := h d (by simp)
      simp [runDisposables, hd, ih fun x hx => h x (by simp [hx])]

namespace EComponent

theorem unloadE_disposable_throws (i : Nat) (cs cs2 : List EComponent)
    (ivs : List Nat) (ds : List EDisp) (tr1 tr3 : List Event) (e : Nat)
    (hcs : unloadListE cs = (cs2, tr1, none))
    (hds : runDisposables ds = (tr3, some e)) :
    unloadE (.mk i true cs ivs ds) =
      (.mk i true [] [] ds, tr1 ++ ivs.map Event.clearInterval ++ tr3, some e) := by
  simp [unloadE, hcs, hds]

end EComponent

/-! ## The claims -/

/-- **C1.** For every loaded node, `unload()` executes its five phases in
strict order, each completing before the next begins: the event trace is
exactly the children's unload cascades in insertion order, then the timer
cancellations, then the disposable invocations in registration order, then the
teardown hook; and in the final state the children, timer and disposable
collections are cleared and the loaded flag is false. -/
theorem unload_runs_phases_in_order (c : Component) (h : c.loaded = true) :
    Component.unload c = (Component.mk c.id false [] [] [],
      (c.children.map fun ch => (Component.unload ch).2).flatten
        ++ c.intervals.map Event.clearInterval
        ++ c.disposables.map Event.dispose
        ++ [Event.onunload c.id]) :=
  Component.unload_of_loaded c h

/-- Witness for C1: a loaded node with two children (in that order), one timer
and two disposables unloads with the phase trace the theorem predicts —
`c1.unload()` before `c2.unload()`, then the timer, then the disposables in
registration order, then the hook. -/
theorem unload_runs_phases_in_order_witness :
    (Component.mk 0 true [Component.mk 1 true [] [] [7], Component.mk 2 true [] [] []]
        [3] [4, 5]).loaded = true
    ∧ Component.unload (Component.mk 0 true
        [Component.mk 1 true [] [] [7], Component.mk 2 true [] [] []] [3] [4, 5]) =
      (Component.mk 0 false [] [] [],
        [Event.dispose 7, Event.onunload 1, Event.onunload 2, Event.clearInterval 3,
         Event.dispose 4, Event.dispose 5, Event.onunload 0]) := by
  refine ⟨rfl, ?_⟩
  rw [unload_runs_phases_in_order (Component.mk 0 true
    [Component.mk 1 true [] [] [7], Component.mk 2 true [] [] []] [3] [4, 5]) rfl]
  simp [Component.unload, Component.unloadList, Component.id, Component.children,
    Component.intervals, Component.disposables]

/-- **C2.** `load()` on a loaded node returns with no state change and no
events; any run of consecutive `load()` calls equals a single one, and from
the unloaded state it produces exactly one initialization-hook event; with the
hook made explicit, `load()` hands the hook a state whose loaded flag is
already true, on which any re-entrant `load()` is a no-op. -/
theorem load_idempotent_and_reentrancy_safe (c : Component) :
    (c.loaded = true → Component.load c = (c, []))
    ∧ (∀ n, Component.loadIter (n + 1) c = Component.load c)
    ∧ (c.loaded = false → ∀ n,
        ((Component.loadIter (n + 1) c).2).count (Event.onload c.id) = 1)
    ∧ (c.loaded = false → ∀ hook,
        Component.loadWith hook c = hook (Component.setLoadedTrue c)
        ∧ ∀ hook2, Component.loadWith hook2 (Component.setLoadedTrue c)
            = (Component.setLoadedTrue c, [])) := by
  refine ⟨Component.load_of_loaded c, Component.loadIter_succ_eq_load c, ?_, ?_⟩
  · intro h n
    rw [Component.loadIter_succ_eq_load, Component.load_of_not_loaded c h]
    simp
  · intro h hook
    refine ⟨by simp [Component.loadWith, h], fun hook2 => ?_⟩
    simp [Component.loadWith, Component.setLoadedTrue, Component.loaded]

/-- Witness for C2 at concrete nodes: a loaded node is untouched by `load()`;
three consecutive loads of a fresh node equal one and fire the hook once; the
explicit-hook `load` passes an already-loaded state to its hook, and a
re-entrant load of that state is a no-op. -/
theorem load_idempotent_and_reentrancy_safe_witness :
    Component.load (Component.mk 0 true [] [] []) = (Component.mk 0 true [] [] [], [])
    ∧ Component.loadIter 3 (Component.mk 1 false [] [] [])
        = Component.load (Component.mk 1 false [] [] [])
    ∧ ((Component.loadIter 3 (Component.mk 1 false [] [] [])).2).count (Event.onload 1) = 1
    ∧ Component.loadWith (fun s => (s, [Event.onload 1])) (Component.mk 1 false [] [] [])
        = (Component.setLoadedTrue (Component.mk 1 false [] [] []), [Event.onload 1])
    ∧ Component.loadWith (fun s => (s, [Event.onload 1]))
          (Component.setLoadedTrue (Component.mk 1 false [] [] []))
        = (Component.setLoadedTrue (Component.mk 1 false [] [] []), []) :=
  ⟨(load_idempotent_and_reentrancy_safe (Component.mk 0 true [] [] [])).1 rfl,
   (load_idempotent_and_reentrancy_safe (Component.mk 1 false [] [] [])).2.1 2,
   (load_idempotent_and_reentrancy_safe (Component.mk 1 false [] [] [])).2.2.1 rfl 2,
   ((load_idempotent_and_reentrancy_safe (Component.mk 1 false [] [] [])).2.2.2 rfl
     (fun s => (s, [Event.onload 1]))).1,
   ((load_idempotent_and_reentrancy_safe (Component.mk 1 false [] [] [])).2.2.2 rfl
     (fun s => (s, [Event.onload 1]))).2 (fun s => (s, [Event.onload 1]))⟩

/-- **C3 (counterexample).** The claim fails for a node that is not loaded: a
disposable registered while the node is unloaded (legal in any lifecycle
state) survives `unload()`, because `unload()` is a guard-protected no-op
there — the disposables collection is `[5]`, not empty, after `unload()`
completes. -/
theorem unload_not_clean_slate_on_unloaded_node :
    (Component.unload (Component.register (Component.mk 0 false [] [] []) 5)).1.disposables
        = [5]
    ∧ ¬ ((Component.unload
          (Component.register (Component.mk 0 false [] [] []) 5)).1.disposables = []) := by
  have h : (Component.unload
      (Component.register (Component.mk 0 false [] [] []) 5)).1.disposables = [5] := by
    simp [Component.register, Component.unload, Component.id, Component.loaded,
      Component.children, Component.intervals, Component.disposables]
  exact ⟨h, by simp [h]⟩

/-- **C3 (amended).** For every **loaded** node, after `unload()` completes
the children, timer and disposable collections are all empty and the loaded
flag is false — the node equals a freshly constructed node of the same
identity — and a subsequent `load()` behaves exactly as loading that fresh
node, observing no residue from the prior cycle. -/
theorem unload_clean_slate_of_loaded (c : Component) (h : c.loaded = true) :
    (Component.unload c).1 = Component.mk c.id false [] [] []
    ∧ Component.load (Component.unload c).1
        = Component.load (Component.mk c.id false [] [] []) := by
  rw [Component.unload_of_loaded c h]
  exact ⟨rfl, rfl⟩

/-- Witness for the amended C3 at a loaded node carrying a timer and a
disposable. -/
theorem unload_clean_slate_of_loaded_witness :
    (Component.mk 3 true [] [2] [9]).loaded = true
    ∧ (Component.unload (Component.mk 3 true [] [2] [9])).1 = Component.mk 3 false [] [] []
    ∧ Component.load (Component.unload (Component.mk 3 true [] [2] [9])).1
        = Component.load (Component.mk 3 false [] [] []) :=
  ⟨rfl, (unload_clean_slate_of_loaded (Component.mk 3 true [] [2] [9]) rfl).1,
    (unload_clean_slate_of_loaded (Component.mk 3 true [] [2] [9]) rfl).2⟩

/-- **C4.** `unload()` on a node whose loaded flag is false returns the state
unchanged with an empty event trace — no child unloads, no timer
cancellations, no disposable invocations, no teardown hook — and after any
`unload()` the flag is false, so every further run of consecutive `unload()`
calls changes nothing and emits nothing. -/
theorem unload_noop_on_unloaded_node (c : Component) :
    (c.loaded = false → Component.unload c = (c, []))
    ∧ ∀ n, Component.unloadIter n (Component.unload c).1 = ((Component.unload c).1, []) :=
  ⟨Component.unload_of_not_loaded c,
   fun n => Component.unloadIter_of_not_loaded _ (Component.unload_fst_loaded c) n⟩

/-- Witness for C4: a never-loaded node with a child, a timer and a disposable
is untouched by `unload()`, and two further unloads after a first one change
nothing. -/
theorem unload_noop_on_unloaded_node_witness :
    Component.unload (Component.mk 0 false [Component.mk 1 true [] [] []] [2] [3])
      = (Component.mk 0 false [Component.mk 1 true [] [] []] [2] [3], [])
    ∧ Component.unloadIter 2
        (Component.unload (Component.mk 0 false [Component.mk 1 true [] [] []] [2] [3])).1
      = ((Component.unload (Component.mk 0 false [Component.mk 1 true [] [] []] [2] [3])).1, []) :=
  ⟨(unload_noop_on_unloaded_node (Component.mk 0 false [Component.mk 1 true [] [] []] [2] [3])).1 rfl,
   (unload_noop_on_unloaded_node (Component.mk 0 false [Component.mk 1 true [] [] []] [2] [3])).2 2⟩

/-- **C5 (counterexample).** When `x` is already a child of `n`,
`n.addChild(x)` then `n.removeChild(x)` does **not** leave the child
collection without `x`: removal takes the first identity-equal entry, so the
appended copy remains. -/
theorem add_remove_child_leaves_occurrence :
    ((Component.removeChild
        (Component.addChild (Component.mk 0 true [Component.mk 1 false [] [] []] [] [])
          (Component.mk 1 false [] [] [])).1
        (Component.mk 1 false [] [] [])).1).children = [Component.mk 1 false [] [] []]
    ∧ Component.mk 1 false [] [] [] ∈
        ((Component.removeChild
          (Component.addChild (Component.mk 0 true [Component.mk 1 false [] [] []] [] [])
            (Component.mk 1 false [] [] [])).1
          (Component.mk 1 false [] [] [])).1).children := by
  have h : ((Component.removeChild
      (Component.addChild (Component.mk 0 true [Component.mk 1 false [] [] []] [] [])
        (Component.mk 1 false [] [] [])).1
      (Component.mk 1 false [] [] [])).1).children = [Component.mk 1 false [] [] []] := by
    simp [Component.addChild, Component.removeChild, Component.removeFirst,
      Component.id, Component.loaded, Component.children, Component.intervals,
      Component.disposables]
  exact ⟨h, by rw [h]; exact List.mem_singleton.mpr rfl⟩

/-- **C5 (amended).** For every node `n` and node `x` whose identity is not
already among `n`'s children, `addChild(x)` then `removeChild(x)` restores the
child collection exactly (in particular it is without `x`); both calls return
`x` unchanged — in particular `x.unload()` is never invoked on it — and
`removeChild` of an absent child is a no-op that still returns `x`. -/
theorem add_remove_child_roundtrip (n x : Component)
    (h : x.id ∉ n.children.map Component.id) :
    (Component.removeChild (Component.addChild n x).1 x).1 = n
    ∧ (Component.addChild n x).2 = x
    ∧ (Component.removeChild (Component.addChild n x).1 x).2 = x
    ∧ Component.removeChild n x = (n, x) := by
  cases n with
  | mk i l cs ivs ds =>
    simp only [Component.children] at h
    refine ⟨?_, rfl, rfl, ?_⟩
    · simp [Component.addChild, Component.removeChild, Component.id, Component.loaded,
        Component.children, Component.intervals, Component.disposables,
        Component.removeFirst_append_self x cs h]
    · simp [Component.removeChild, Component.id, Component.loaded, Component.children,
        Component.intervals, Component.disposables, Component.removeFirst_of_not_mem x cs h]

/-- Witness for the amended C5: adding then removing a loaded child `x` (id 1)
on a node whose only prior child has id 2 restores the original children and
hands back `x` still loaded and unchanged. -/
theorem add_remove_child_roundtrip_witness :
    (Component.mk 1 true [] [] [7]).id ∉
        ((Component.mk 0 true [Component.mk 2 false [] [] []] [] []).children.map Component.id)
    ∧ (Component.removeChild
        (Component.addChild (Component.mk 0 true [Component.mk 2 false [] [] []] [] [])
          (Component.mk 1 true [] [] [7])).1
        (Component.mk 1 true [] [] [7])).1
      = Component.mk 0 true [Component.mk 2 false [] [] []] [] []
    ∧ (Component.removeChild
        (Component.addChild (Component.mk 0 true [Component.mk 2 false [] [] []] [] [])
          (Component.mk 1 true [] [] [7])).1
        (Component.mk 1 true [] [] [7])).2
      = Component.mk 1 true [] [] [7] := by
  have hnm : (Component.mk 1 true [] [] [7]).id ∉
      ((Component.mk 0 true [Component.mk 2 false [] [] []] [] []).children.map Component.id) := by
    simp [Component.id, Component.children]
  exact ⟨hnm,
    (add_remove_child_roundtrip (Component.mk 0 true [Component.mk 2 false [] [] []] [] [])
      (Component.mk 1 true [] [] [7]) hnm).1,
    (add_remove_child_roundtrip (Component.mk 0 true [Component.mk 2 false [] [] []] [] [])
      (Component.mk 1 true [] [] [7]) hnm).2.2.1⟩

/-- **C6.** `register(cb)` appends `cb` to the disposables list in any
lifecycle state (no condition on the loaded flag, no deduplication, no
immediate invocation — it produces no events); registering the same callback
twice makes the next `unload()` invoke it at least twice more than the prior
registrations account for; and a callback registered while the node is
unloaded is queued: after a later `load()`, the next `unload()` invokes it. -/
theorem register_appends_without_dedup (c : Component) (d : Nat) :
    Component.register c d
      = Component.mk c.id c.loaded c.children c.intervals (c.disposables ++ [d])
    ∧ (c.loaded = true →
        c.disposables.count d + 2 ≤
          ((Component.unload
            (Component.register (Component.register c d) d)).2).count (Event.dispose d))
    ∧ (c.loaded = false →
        c.disposables.count d + 1 ≤
          ((Component.unload
            (Component.load (Component.register c d)).1).2).count (Event.dispose d)) := by
  have h1 : List.count d [d] = 1 := by simp
  refine ⟨rfl, ?_, ?_⟩
  · intro h
    have h2 : (Component.register (Component.register c d) d).loaded = true := by
      simp [Component.register_loaded, h]
    have hge := Component.count_dispose_unload_ge _ h2 d
    simp only [Component.register_disposables, List.count_append, h1] at hge
    omega
  · intro h
    have hge := Component.count_dispose_unload_ge _
      (Component.load_fst_loaded (Component.register c d)) d
    simp only [Component.load_fst_disposables, Component.register_disposables,
      List.count_append, h1] at hge
    omega

/-- Witness for C6: on a loaded node, registering disposable 4 twice makes the
unload trace carry it at least twice; on an unloaded node, a queued disposable
runs in the unload that follows a later load. -/
theorem register_appends_without_dedup_witness :
    Component.register (Component.mk 0 true [] [] []) 4 = Component.mk 0 true [] [] [4]
    ∧ 2 ≤ ((Component.unload
        (Component.register (Component.register (Component.mk 0 true [] [] []) 4) 4)).2).count
          (Event.dispose 4)
    ∧ 1 ≤ ((Component.unload
        (Component.load (Component.register (Component.mk 1 false [] [] []) 4)).1).2).count
          (Event.dispose 4) :=
  ⟨(register_appends_without_dedup (Component.mk 0 true [] [] []) 4).1,
   (register_appends_without_dedup (Component.mk 0 true [] [] []) 4).2.1 rfl,
   (register_appends_without_dedup (Component.mk 1 false [] [] []) 4).2.2 rfl⟩

/-- **C7 (counterexample).** `addCommand` performs its host side effect but
never calls `register`: on a fresh plugin the disposables list stays empty
while the command id is recorded in the separate `registeredCommands` array;
`registerEvent` likewise leaves the disposables list untouched.  So not every
convenience registration method routes its cleanup through the disposables
list. -/
theorem addCommand_bypasses_disposables :
    (Plugin.addCommand (Plugin.fresh "m") ⟨"c1", "Cmd"⟩).1.disposables = []
    ∧ (Plugin.addCommand (Plugin.fresh "m") ⟨"c1", "Cmd"⟩).1.registeredCommands = ["c1"]
    ∧ (Plugin.addCommand (Plugin.fresh "m") ⟨"c1", "Cmd"⟩).2
        = [PEffect.commandRegisterFx "c1"]
    ∧ (Plugin.registerEvent (Plugin.fresh "m") 3).1.disposables = [] :=
  ⟨rfl, rfl, rfl, rfl⟩

/-- **C7 (amended).** `registerView`, `registerExtensions`, `loadCss` and
`addSettingTab` each perform their external side effect immediately and then
call `register` with a closure that reverses exactly that one effect;
`addCommand` and `registerEvent`, by contrast, bypass `register`: they append
to the dedicated `registeredCommands`/`registeredEvents` arrays, and the
`onunload` override — not the disposables list — performs their cleanup. -/
theorem convenience_methods_cleanup_paths (p : Plugin) (t : String)
    (es : List String) (cmd : Command) (ref : Nat) :
    Plugin.registerView p t
        = ({ p with disposables := p.disposables ++ [Cleanup.unregisterView t] },
           [PEffect.viewRegisterFx t])
    ∧ runCleanup (Cleanup.unregisterView t) = PEffect.viewUnregisterFx t
    ∧ Plugin.registerExtensions p es t
        = ({ p with disposables := p.disposables ++ [Cleanup.unregisterExtensions es] },
           [PEffect.extsRegisterFx es t])
    ∧ runCleanup (Cleanup.unregisterExtensions es) = PEffect.extsUnregisterFx es
    ∧ Plugin.loadCss p
        = ({ p with disposables :=
              p.disposables ++ [Cleanup.removeStyle ("plugin-css-" ++ p.manifestId)] },
           [PEffect.styleAppendFx ("plugin-css-" ++ p.manifestId)])
    ∧ runCleanup (Cleanup.removeStyle ("plugin-css-" ++ p.manifestId))
        = PEffect.styleRemoveFx ("plugin-css-" ++ p.manifestId)
    ∧ Plugin.addSettingTab p
        = ({ p with disposables :=
              p.disposables ++ [Cleanup.unregisterSettingsTab p.manifestId] },
           [PEffect.tabRegisterFx p.manifestId])
    ∧ runCleanup (Cleanup.unregisterSettingsTab p.manifestId)
        = PEffect.tabUnregisterFx p.manifestId
    ∧ Plugin.addCommand p cmd
        = ({ p with registeredCommands := p.registeredCommands ++ [cmd.id] },
           [PEffect.commandRegisterFx cmd.id])
    ∧ (Plugin.addCommand p cmd).1.disposables = p.disposables
    ∧ Plugin.registerEvent p ref
        = ({ p with registeredEvents := p.registeredEvents ++ [ref] }, [])
    ∧ (Plugin.registerEvent p ref).1.disposables = p.disposables
    ∧ Plugin.onunloadHook p
        = p.registeredCommands.map PEffect.commandUnregisterFx
            ++ p.registeredEvents.map PEffect.eventOffFx :=
  ⟨rfl, rfl, rfl, rfl, rfl, rfl, rfl, rfl, rfl, rfl, rfl, rfl, rfl⟩

/-- **C8.** `loadData()` never raises past its boundary: it yields the empty
settings object when the file does not exist, when reading fails, and when
parsing fails; `saveData()` swallows a failing write, reporting it only as
logged; and neither wrapper touches the lifecycle state (loaded flag,
children, disposables). -/
theorem persistence_never_raises (p : Plugin) (fs : Fs) (d : PluginSettings) :
    (fs.fileExists (settingsPath fs p.manifestId) = false →
        Plugin.loadData p fs = (p, emptySettings))
    ∧ (∀ e, fs.readTextFile (settingsPath fs p.manifestId) = .error e →
        Plugin.loadData p fs = (p, emptySettings))
    ∧ (∀ data e, fs.readTextFile (settingsPath fs p.manifestId) = .ok data →
        fs.parseJson data = .error e →
        Plugin.loadData p fs = (p, emptySettings))
    ∧ (∀ e, fs.writeTextFile (settingsPath fs p.manifestId) (fs.stringifyJson d) = .error e →
        Plugin.saveData p fs d = ({ p with settingsData := d }, true))
    ∧ ((Plugin.loadData p fs).1.loaded = p.loaded
        ∧ (Plugin.loadData p fs).1.children = p.children
        ∧ (Plugin.loadData p fs).1.disposables = p.disposables
        ∧ (Plugin.saveData p fs d).1.loaded = p.loaded
        ∧ (Plugin.saveData p fs d).1.children = p.children
        ∧ (Plugin.saveData p fs d).1.disposables = p.disposables) := by
  refine ⟨?_, ?_, ?_, ?_, ?_⟩
  · intro h
    simp [Plugin.loadData, Plugin.loadDataBody, h, pure, Except.pure]
  · intro e h
    unfold Plugin.loadData Plugin.loadDataBody
    cases hex : fs.fileExists (settingsPath fs p.manifestId)
    · simp [hex, pure, Except.pure]
    · simp [hex, h, Bind.bind, Except.bind, Functor.map, Except.map, pure, Except.pure]
  · intro data e hr hp
    unfold Plugin.loadData Plugin.loadDataBody
    cases hex : fs.fileExists (settingsPath fs p.manifestId)
    · simp [hex, pure, Except.pure]
    · simp [hex, hr, hp, Bind.bind, Except.bind, Functor.map, Except.map, pure, Except.pure]
  · intro e h
    simp [Plugin.saveData, h]
  · have hload : (Plugin.loadData p fs).1.loaded = p.loaded
        ∧ (Plugin.loadData p fs).1.children = p.children
        ∧ (Plugin.loadData p fs).1.disposables = p.disposables := by
      unfold Plugin.loadData Plugin.loadDataBody
      cases hex : fs.fileExists (settingsPath fs p.manifestId)
      · simp [hex, pure, Except.pure]
      · cases hr : fs.readTextFile (settingsPath fs p.manifestId) with
        | error e => simp [hex, hr, Bind.bind, Except.bind, Functor.map, Except.map, pure, Except.pure]
        | ok data =>
            cases hp2 : fs.parseJson data with
            | error e2 => simp [hex, hr, hp2, Bind.bind, Except.bind, Functor.map, Except.map, pure, Except.pure]
            | ok s => simp [hex, hr, hp2, Bind.bind, Except.bind, Functor.map, Except.map, pure, Except.pure]
    have hsv : (Plugin.saveData p fs d).1.loaded = p.loaded
        ∧ (Plugin.saveData p fs d).1.children = p.children
        ∧ (Plugin.saveData p fs d).1.disposables = p.disposables := by
      unfold Plugin.saveData
      cases hw : fs.writeTextFile (settingsPath fs p.manifestId) (fs.stringifyJson d) <;>
        simp [hw]
    exact ⟨hload.1, hload.2.1, hload.2.2, hsv.1, hsv.2.1, hsv.2.2⟩

/-- Witness for C8 on concrete collaborator stubs: a missing settings file, a
failing read, and a failing parse each degrade `loadData` of a fresh plugin to
the empty settings object; a failing write leaves `saveData` returning
normally with the failure merely logged. -/
theorem persistence_never_raises_witness :
    Plugin.loadData (Plugin.fresh "m") fsMissing = (Plugin.fresh "m", emptySettings)
    ∧ Plugin.loadData (Plugin.fresh "m") fsReadFails = (Plugin.fresh "m", emptySettings)
    ∧ Plugin.loadData (Plugin.fresh "m") fsParseFails = (Plugin.fresh "m", emptySettings)
    ∧ Plugin.saveData (Plugin.fresh "m") fsMissing ([("k", "v")] : PluginSettings)
        = ({ Plugin.fresh "m" with settingsData := ([("k", "v")] : PluginSettings) }, true) :=
  ⟨(persistence_never_raises (Plugin.fresh "m") fsMissing emptySettings).1 rfl,
   (persistence_never_raises (Plugin.fresh "m") fsReadFails emptySettings).2.1 "io" rfl,
   (persistence_never_raises (Plugin.fresh "m") fsParseFails emptySettings).2.2.1
      "garbage" "json" rfl rfl,
   (persistence_never_raises (Plugin.fresh "m") fsMissing
      ([("k", "v")] : PluginSettings)).2.2.2.1 "io" rfl⟩

/-- **C9.** If, on a loaded node whose children unload without error, the
first throwing disposable is reached during `unload()`, the error propagates
out of `unload()` after the children have been unloaded and cleared and all
timers cancelled and cleared; the disposables before it ran, the remaining
ones did not, the disposables list is not cleared, the teardown hook does not
run, and the loaded flag stays true — so a second `unload()` re-enters
teardown and re-invokes every disposable from the beginning, failing at the
same one. -/
theorem unload_disposable_throw_partial_teardown (c : EComponent)
    (pre post : List EDisp) (e : Nat)
    (h1 : c.loaded = true)
    (h2 : (EComponent.unloadListE c.children).2.2 = none)
    (h3 : c.disposables = pre ++ ⟨e, true⟩ :: post)
    (h4 : ∀ d ∈ pre, d.throws = false) :
    EComponent.unloadE c
      = (EComponent.mk c.id true [] [] c.disposables,
         (EComponent.unloadListE c.children).2.1
           ++ c.intervals.map Event.clearInterval
           ++ pre.map (fun d => Event.dispose d.id),
         some e)
    ∧ EComponent.unloadE (EComponent.unloadE c).1
      = ((EComponent.unloadE c).1, pre.map (fun d => Event.dispose d.id), some e) := by
  cases c with
  | mk i l cs ivs ds =>
    simp only [EComponent.loaded] at h1
    simp only [EComponent.disposables] at h3
    simp only [EComponent.children] at h2 ⊢
    subst h1
    subst h3
    have hrd := runDisposables_eq_of_throw pre post e h4
    rcases hL : EComponent.unloadListE cs with ⟨cs2, tr1, err⟩
    rw [hL] at h2
    simp only at h2
    subst h2
    have hmain := EComponent.unloadE_disposable_throws i cs cs2 ivs
      (pre ++ ⟨e, true⟩ :: post) tr1 (pre.map fun d => Event.dispose d.id) e hL hrd
    constructor
    · rw [hmain]
      simp [EComponent.id, EComponent.intervals, EComponent.disposables]
    · rw [hmain]
      have hL2 : EComponent.unloadListE ([] : List EComponent) = ([], [], none) := by
        simp [EComponent.unloadListE]
      have hagain := EComponent.unloadE_disposable_throws i [] [] []
        (pre ++ ⟨e, true⟩ :: post) [] (pre.map fun d => Event.dispose d.id) e hL2 hrd
      rw [hagain]
      simp

/-- Witness for C9: a loaded node with one (cleanly unloading) child, one
timer and disposables `[7 ok, 8 throws, 9 ok]`: `unload()` unloads the child,
cancels the timer, runs disposable 7, then propagates error 8 leaving the
disposables intact and the node loaded; a second `unload()` re-runs
disposable 7 and fails at 8 again. -/
theorem unload_disposable_throw_partial_teardown_witness :
    EComponent.unloadE (EComponent.mk 0 true [EComponent.mk 1 true [] [] []] [4]
        [⟨7, false⟩, ⟨8, true⟩, ⟨9, false⟩])
      = (EComponent.mk 0 true [] [] [⟨7, false⟩, ⟨8, true⟩, ⟨9, false⟩],
         [Event.onunload 1, Event.clearInterval 4, Event.dispose 7], some 8)
    ∧ EComponent.unloadE (EComponent.unloadE (EComponent.mk 0 true
        [EComponent.mk 1 true [] [] []] [4] [⟨7, false⟩, ⟨8, true⟩, ⟨9, false⟩])).1
      = ((EComponent.unloadE (EComponent.mk 0 true [EComponent.mk 1 true [] [] []] [4]
          [⟨7, false⟩, ⟨8, true⟩, ⟨9, false⟩])).1, [Event.dispose 7], some 8) := by
  obtain ⟨ha, hb⟩ := unload_disposable_throw_partial_teardown
    (EComponent.mk 0 true [EComponent.mk 1 true [] [] []] [4]
      [⟨7, false⟩, ⟨8, true⟩, ⟨9, false⟩])
    [⟨7, false⟩] [⟨9, false⟩] 8 rfl
    (by simp [EComponent.unloadListE, EComponent.unloadE, runDisposables,
      EComponent.children])
    rfl (by decide)
  refine ⟨?_, hb⟩
  rw [ha]
  simp [EComponent.unloadListE, EComponent.unloadE, runDisposables, EComponent.id,
    EComponent.children, EComponent.intervals, EComponent.disposables]

/-- **C10.** `unload()` never clears the plugin's `registeredCommands` and
`registeredEvents` arrays, which `addCommand`/`registerEvent` append to; on
each unload the `onunload` override unregisters every command id and
unsubscribes every event ref accumulated since construction, so after a
load–unload–load–unload sequence the second unload re-issues the unregister
call for the first cycle's command — the clean-slate law does not extend to
this bookkeeping. -/
theorem plugin_bookkeeping_never_cleared (p : Plugin) (c1 c2 : Command)
    (ref : Nat) (m : String) :
    (Plugin.unload p).1.registeredCommands = p.registeredCommands
    ∧ (Plugin.unload p).1.registeredEvents = p.registeredEvents
    ∧ (Plugin.addCommand p c1).1.registeredCommands = p.registeredCommands ++ [c1.id]
    ∧ (Plugin.registerEvent p ref).1.registeredEvents = p.registeredEvents ++ [ref]
    ∧ (p.loaded = true →
        (Plugin.unload p).2
          = p.children.map PEffect.childUnloadFx
              ++ p.intervals.map PEffect.clearIntervalFx
              ++ p.disposables.map runCleanup
              ++ (p.registeredCommands.map PEffect.commandUnregisterFx
                  ++ p.registeredEvents.map PEffect.eventOffFx))
    ∧ (Plugin.unload (Plugin.addCommand (Plugin.load
          (Plugin.unload (Plugin.addCommand (Plugin.load (Plugin.fresh m)) c1).1).1) c2).1).2
        = [PEffect.commandUnregisterFx c1.id, PEffect.commandUnregisterFx c2.id] := by
  refine ⟨?_, ?_, rfl, rfl, ?_, ?_⟩
  · cases hp : p.loaded <;> simp [Plugin.unload, hp]
  · cases hp : p.loaded <;> simp [Plugin.unload, hp]
  · intro h
    simp [Plugin.unload, h, Plugin.onunloadHook]
  · simp [Plugin.fresh, Plugin.load, Plugin.addCommand, Plugin.unload,
      Plugin.onunloadHook]

/-- Witness for C10: a loaded plugin with one leftover command id "old" keeps
it across unload while re-issuing its unregister call, and the concrete
load–unload–load–unload run with commands "a" then "b" has the second unload
unregister both. -/
theorem plugin_bookkeeping_never_cleared_witness :
    (Plugin.unload ⟨"m", true, [1], [2], [.custom 3], ["old"], [4], emptySettings⟩).1.registeredCommands
        = ["old"]
    ∧ (Plugin.unload ⟨"m", true, [1], [2], [.custom 3], ["old"], [4], emptySettings⟩).2
        = [PEffect.childUnloadFx 1, PEffect.clearIntervalFx 2, PEffect.customDisposeFx 3,
           PEffect.commandUnregisterFx "old", PEffect.eventOffFx 4]
    ∧ (Plugin.unload (Plugin.addCommand (Plugin.load
          (Plugin.unload (Plugin.addCommand (Plugin.load (Plugin.fresh "m"))
            ⟨"a", "A"⟩).1).1) ⟨"b", "B"⟩).1).2
        = [PEffect.commandUnregisterFx "a", PEffect.commandUnregisterFx "b"] :=
  ⟨(plugin_bookkeeping_never_cleared
      ⟨"m", true, [1], [2], [.custom 3], ["old"], [4], emptySettings⟩
      ⟨"a", "A"⟩ ⟨"b", "B"⟩ 5 "m").1,
   (plugin_bookkeeping_never_cleared
      ⟨"m", true, [1], [2], [.custom 3], ["old"], [4], emptySettings⟩
      ⟨"a", "A"⟩ ⟨"b", "B"⟩ 5 "m").2.2.2.2.1 rfl,
   (plugin_bookkeeping_never_cleared
      ⟨"m", true, [1], [2], [.custom 3], ["old"], [4], emptySettings⟩
      ⟨"a", "A"⟩ ⟨"b", "B"⟩ 5 "m").2.2.2.2.2⟩

end Vandrite
